import Mathlib

/-
  Verification of the Twitter sentiment-analysis pipeline (src/main.py).

  Shallow embedding conventions:
  - Tweet text is a list of characters; the external polarity scorer
    (TextBlob) is an abstract parameter of type List Char → ℚ.
  - Python floats are modelled by rationals; round(x, 3) is modelled by
    round-half-to-even at three decimal places.
  - Code that can raise an uncaught exception returns Option/Except;
    none / error means the exception escapes.
  - The dict public_metrics is an association list wrapped in Option:
    none models the attribute being None, some [] the empty (falsy) dict.
-/

namespace XSentiment

/-- Replace every occurrence of character c by r; models Python
str.replace for a single-character pattern, as used on tweet text. -/
def replaceChar (c r : Char) (s : List Char) : List Char :=
  s.map (fun x => if x = c then r else x)

/-- Line 75: tweet.text.replace(newline, space).replace(carriage-return, space). -/
def cleanText (s : List Char) : List Char :=
  replaceChar '\r' ' ' (replaceChar '\n' ' ' s)

/-- Round a rational to the nearest integer, ties to even; models Python
round() on the value of the polarity score. -/
def roundHalfEven (q : ℚ) : ℤ :=
  let f := ⌊q⌋
  let r := q - (f : ℚ)
  if r < 1/2 then f
  else if (1:ℚ)/2 < r then f + 1
  else if f % 2 = 0 then f else f + 1

/-- Line 86: round(polarity, 3). -/
def round3 (q : ℚ) : ℚ := ((roundHalfEven (q * 1000) : ℚ)) / 1000

/-- Lines 54-67: analyze_sentiment.  The polarity comes from the external
scorer; the label is derived from its sign. -/
def analyze_sentiment (score : List Char → ℚ) (tweet_text : List Char) :
    String × ℚ :=
  let polarity := score tweet_text
  let sentiment :=
    if polarity > 0 then "positive"
    else if polarity < 0 then "negative"
    else "neutral"
  (sentiment, polarity)

/-- A fetched post (tweepy Tweet): id, text, created_at (opaque timestamp),
and the optional public_metrics dict. -/
structure Tweet where
  id : Nat
  text : List Char
  created_at : Nat
  public_metrics : Option (List (String × Nat))
  deriving DecidableEq, Repr

/-- Python dict lookup d[k]: none models a KeyError. -/
def dictGet (m : List (String × Nat)) (k : String) : Option Nat :=
  match m with
  | [] => none
  | (k2, v) :: rest => if k2 = k then some v else dictGet rest k

/-- One assembled row (the tweet_data dict of lines 81-89). -/
structure TweetData where
  tweet_id : Nat
  text : List Char
  created_at : Nat
  sentiment : String
  polarity_score : ℚ
  retweet_count : Nat
  like_count : Nat
  deriving DecidableEq, Repr

/-- Lines 73-91, one loop iteration: clean the text, score it, and build
the row.  The metrics expression
`tweet.public_metrics[key] if tweet.public_metrics else 0`
defaults to 0 when the dict is falsy (None or empty) and indexes it
directly otherwise; a missing key then raises (modelled by none). -/
def processTweet (score : List Char → ℚ) (tweet : Tweet) : Option TweetData :=
  let clean_text := cleanText tweet.text
  let sp := analyze_sentiment score clean_text
  let rc : Option Nat :=
    match tweet.public_metrics with
    | none => some 0
    | some [] => some 0
    | some m => dictGet m "retweet_count"
  let lc : Option Nat :=
    match tweet.public_metrics with
    | none => some 0
    | some [] => some 0
    | some m => dictGet m "like_count"
  match rc, lc with
  | some rcv, some lcv =>
      some ⟨tweet.id, clean_text, tweet.created_at, sp.1, round3 sp.2, rcv, lcv⟩
  | _, _ => none

/-- Lines 69-94: process_tweets loops over the tweets in order, appending
one row per tweet; the first raised exception aborts the whole call. -/
def process_tweets (score : List Char → ℚ) : List Tweet → Option (List TweetData)
  | [] => some []
  | t :: ts =>
    match processTweet score t with
    | none => none
    | some d =>
      match process_tweets score ts with
      | none => none
      | some ds => some (d :: ds)

/-- Lines 100-101: the fixed CSV header. -/
def headers : List String :=
  ["tweet_id", "text", "created_at", "sentiment",
   "polarity_score", "retweet_count", "like_count"]

/-- A value written into one CSV cell. -/
inductive CsvValue where
  | nat (n : Nat)
  | chars (s : List Char)
  | str (s : String)
  | rat (q : ℚ)
  deriving DecidableEq, Repr

/-- The value a row dict holds under a given column name; none models a
column name absent from the dict (DictWriter would write its restval). -/
def fieldOf (d : TweetData) (name : String) : Option CsvValue :=
  if name = "tweet_id" then some (.nat d.tweet_id)
  else if name = "text" then some (.chars d.text)
  else if name = "created_at" then some (.nat d.created_at)
  else if name = "sentiment" then some (.str d.sentiment)
  else if name = "polarity_score" then some (.rat d.polarity_score)
  else if name = "retweet_count" then some (.nat d.retweet_count)
  else if name = "like_count" then some (.nat d.like_count)
  else none

/-- DictWriter row serialization: one cell per header name, in header
order, taken from the row dict. -/
def rowOf (d : TweetData) : List (Option CsvValue) :=
  headers.map (fieldOf d)

/-- Lines 96-114: save_to_csv.  Returns the boolean result together with
the file written (header line plus one row per record, in order); on an
I/O failure it returns False and no valid file exists. -/
def save_to_csv (io_ok : Bool) (results : List TweetData) :
    Bool × Option (List String × List (List (Option CsvValue))) :=
  if io_ok then (true, some (headers, results.map rowOf))
  else (false, none)

/-- Lines 116-133: upload_to_s3 catches every exception, returning True on
success and False on any failure; it never raises. -/
def upload_to_s3 (upload_ok : Bool) : Bool := upload_ok

/-- Line 142 initial dict: sentiment_counts. -/
def initCounts : List (String × Nat) :=
  [("positive", 0), ("negative", 0), ("neutral", 0)]

/-- Python dict increment counts[key] += 1: none models the KeyError
raised when the key is absent. -/
def bump (counts : List (String × Nat)) (key : String) :
    Option (List (String × Nat)) :=
  match counts with
  | [] => none
  | (k, v) :: rest =>
    if k = key then some ((k, v + 1) :: rest)
    else (bump rest key).map (fun r => (k, v) :: r)

/-- Lines 145-147: the loop accumulating sentiment counts and the total
polarity. -/
def tally : List TweetData → List (String × Nat) → ℚ →
    Option (List (String × Nat) × ℚ)
  | [], counts, tp => some (counts, tp)
  | d :: ds, counts, tp =>
    match bump counts d.sentiment with
    | none => none
    | some counts2 => tally ds counts2 (tp + d.polarity_score)

/-- The summary report printed by generate_summary. -/
structure Summary where
  total : Nat
  counts : List (String × Nat)
  percentages : List (String × ℚ)
  avg_polarity : ℚ
  overall : String
  deriving DecidableEq, Repr

/-- Lines 135-175: generate_summary.  ok none: the empty-input
short-circuit of lines 137-139 (no report, no division); error (): an
uncaught KeyError from the counts dict; ok (some s): the printed report. -/
def generate_summary (results : List TweetData) : Except Unit (Option Summary) :=
  if results.isEmpty then .ok none
  else
    match tally results initCounts 0 with
    | none => .error ()
    | some (counts, total_polarity) =>
      let total := results.length
      let percentages :=
        counts.map (fun p => (p.1, ((p.2 : ℚ) / (total : ℚ)) * 100))
      let avg_polarity := total_polarity / (total : ℚ)
      let overall :=
        if avg_polarity > 1/10 then "POSITIVE"
        else if avg_polarity < -(1/10) then "NEGATIVE"
        else "NEUTRAL"
      .ok (some ⟨total, counts, percentages, avg_polarity, overall⟩)

/-- Lines 30-52: fetch_tweets.  The provider either fails (error, caught:
empty list returned) or returns tweets.data, which is None or a list;
only a truthy (non-empty) list is returned as is, everything else
becomes the empty list. -/
def fetch_tweets (resp : Except Unit (Option (List Tweet))) : List Tweet :=
  match resp with
  | .error _ => []
  | .ok none => []
  | .ok (some d) => if d.isEmpty then [] else d

/-- The external world of one run: authentication outcome, the provider
response, the polarity scorer, the filesystem outcome for the CSV write,
the configured bucket name, and the upload outcome. -/
structure Env where
  auth_ok : Bool
  fetch_resp : Except Unit (Option (List Tweet))
  score : List Char → ℚ
  save_ok : Bool
  bucket : String
  upload_ok : Bool

/-- Observable outcome of a run of main: the CSV file left on disk, the
summary produced, whether the publish stage ran and succeeded, and
whether main reached its final completion message. -/
structure RunResult where
  csv_file : Option (List String × List (List (Option CsvValue)))
  summary : Option Summary
  publish_attempted : Bool
  published : Bool
  completed : Bool
  deriving DecidableEq, Repr

/-- A run halted by an early return: nothing written, nothing summarized. -/
def halted : RunResult := ⟨none, none, false, false, false⟩

/-- Lines 177-216: main.  none models an uncaught exception escaping
main; some r a normal return with observable outcome r. -/
def main (env : Env) : Option RunResult :=
  if !env.auth_ok then some halted
  else
    let tweets := fetch_tweets env.fetch_resp
    if tweets.isEmpty then some halted
    else
      match process_tweets env.score tweets with
      | none => none
      | some results =>
        match save_to_csv env.save_ok results with
        | (false, _) => some halted
        | (true, file) =>
          match generate_summary results with
          | .error _ => none
          | .ok s =>
            if env.bucket ≠ "YOUR_BUCKET_NAME" then
              some ⟨file, s, true, upload_to_s3 env.upload_ok, true⟩
            else
              some ⟨file, s, false, false, true⟩

/-! Concrete inputs used by witnesses. -/

/-- A scorer that assigns polarity 0 to every text. -/
def scoreW : List Char → ℚ := fun _ => 0

/-- A concrete fetched tweet with no public_metrics dict. -/
def tW : Tweet := ⟨1, ['h', 'i'], 0, none⟩

/-- The row assembled from tW under scoreW. -/
def dW : TweetData := ⟨1, ['h', 'i'], 0, "neutral", 0, 0, 0⟩

lemma round3_zero : round3 0 = 0 := by
  norm_num [round3, roundHalfEven]

lemma analyze_sentiment_scoreW (s : List Char) :
    analyze_sentiment scoreW s = ("neutral", 0) := by
  simp [analyze_sentiment, scoreW]

lemma processTweet_tW : processTweet scoreW tW = some dW := by
  simp [processTweet, tW, dW, cleanText, replaceChar, analyze_sentiment_scoreW,
    round3_zero]

lemma process_tweets_tW : process_tweets scoreW [tW] = some [dW] := by
  simp [process_tweets, processTweet_tW]

/-- C1: for every polarity value p returned by the scorer, the label of
analyze_sentiment is positive iff p > 0, negative iff p < 0, neutral iff
p = 0, and no fourth label occurs. -/
theorem C1_label_iff_sign (score : List Char → ℚ) (text : List Char) :
    ((analyze_sentiment score text).1 = "positive" ↔
      0 < (analyze_sentiment score text).2) ∧
    ((analyze_sentiment score text).1 = "negative" ↔
      (analyze_sentiment score text).2 < 0) ∧
    ((analyze_sentiment score text).1 = "neutral" ↔
      (analyze_sentiment score text).2 = 0) ∧
    ((analyze_sentiment score text).1 = "positive" ∨
      (analyze_sentiment score text).1 = "negative" ∨
      (analyze_sentiment score text).1 = "neutral") := by
  rcases lt_trichotomy (score text) 0 with h | h | h
  · simp [analyze_sentiment, h, lt_asymm h, h.ne]
  · simp [analyze_sentiment, h]
  · simp [analyze_sentiment, h, lt_asymm h, h.ne.symm]

/-- C2: whenever process_tweets returns normally it yields exactly one
assembled record per input tweet, each derived from the corresponding
tweet, in the input order; in particular the lengths agree. -/
theorem C2_assembler_one_to_one (score : List Char → ℚ)
    (tweets : List Tweet) (results : List TweetData)
    (h : process_tweets score tweets = some results) :
    results.length = tweets.length ∧
    List.Forall₂ (fun t d => processTweet score t = some d) tweets results := by
  induction tweets generalizing results with
  | nil =>
    simp [process_tweets] at h
    subst h
    simp
  | cons t ts ih =>
    rw [process_tweets] at h
    cases hpt : processTweet score t with
    | none => rw [hpt] at h; exact absurd h (by simp)
    | some d =>
      rw [hpt] at h
      cases hrest : process_tweets score ts with
      | none => rw [hrest] at h; exact absurd h (by simp)
      | some ds =>
        rw [hrest] at h
        simp only [Option.some.injEq] at h
        subst h
        obtain ⟨hlen, hall⟩ := ih ds hrest
        exact ⟨by simp [hlen], List.Forall₂.cons hpt hall⟩

/-- Witness for C2 at a concrete one-tweet fetch. -/
theorem C2_assembler_one_to_one_witness :
    [dW].length = [tW].length ∧
    List.Forall₂ (fun t d => processTweet scoreW t = some d) [tW] [dW] :=
  C2_assembler_one_to_one scoreW [tW] [dW] process_tweets_tW

lemma not_mem_replaceChar_self (c r : Char) (h : c ≠ r) (s : List Char) :
    c ∉ replaceChar c r s := by
  simp only [replaceChar, List.mem_map, not_exists]
  rintro x ⟨hx, hfx⟩
  by_cases hxc : x = c
  · rw [if_pos hxc] at hfx
    exact h hfx.symm
  · rw [if_neg hxc] at hfx
    exact hxc hfx

lemma not_mem_replaceChar_of_not_mem (c r x : Char) (hxr : x ≠ r)
    (s : List Char) (hxs : x ∉ s) : x ∉ replaceChar c r s := by
  simp only [replaceChar, List.mem_map, not_exists]
  rintro a ⟨ha, hfa⟩
  by_cases hac : a = c
  · rw [if_pos hac] at hfa
    exact hxr hfa.symm
  · rw [if_neg hac] at hfa
    exact hxs (hfa ▸ ha)

lemma nl_not_mem_cleanText (s : List Char) : '\n' ∉ cleanText s :=
  not_mem_replaceChar_of_not_mem '\r' ' ' '\n' (by decide) _
    (not_mem_replaceChar_self '\n' ' ' (by decide) s)

lemma cr_not_mem_cleanText (s : List Char) : '\r' ∉ cleanText s :=
  not_mem_replaceChar_self '\r' ' ' (by decide) _

lemma sentiment_cases (score : List Char → ℚ) (text : List Char) :
    (analyze_sentiment score text).1 = "positive" ∨
    (analyze_sentiment score text).1 = "negative" ∨
    (analyze_sentiment score text).1 = "neutral" := by
  rcases lt_trichotomy (score text) 0 with h | h | h
  · simp [analyze_sentiment, h, lt_asymm h]
  · simp [analyze_sentiment, h]
  · simp [analyze_sentiment, h]

lemma processTweet_some_fields (score : List Char → ℚ) (t : Tweet)
    (d : TweetData) (h : processTweet score t = some d) :
    d.text = cleanText t.text ∧
    d.sentiment = (analyze_sentiment score (cleanText t.text)).1 ∧
    d.polarity_score = round3 ((analyze_sentiment score (cleanText t.text)).2) := by
  cases hpm : t.public_metrics with
  | none =>
    simp only [processTweet, hpm, Option.some.injEq] at h
    subst h
    exact ⟨rfl, rfl, rfl⟩
  | some m =>
    cases m with
    | nil =>
      simp only [processTweet, hpm, Option.some.injEq] at h
      subst h
      exact ⟨rfl, rfl, rfl⟩
    | cons p rest =>
      simp only [processTweet, hpm] at h
      cases hrc : dictGet (p :: rest) "retweet_count" with
      | none => simp [hrc] at h
      | some rcv =>
        cases hlc : dictGet (p :: rest) "like_count" with
        | none => simp [hrc, hlc] at h
        | some lcv =>
          simp only [hrc, hlc, Option.some.injEq] at h
          subst h
          exact ⟨rfl, rfl, rfl⟩

/-- C8: every assembled record's text is the raw post text with newline
and carriage-return characters replaced by spaces, the scorer is applied
to exactly that normalized text, and neither the text field nor the
label field contains a raw line-break character. -/
theorem C8_text_normalization (score : List Char → ℚ) (t : Tweet)
    (d : TweetData) (h : processTweet score t = some d) :
    d.text = cleanText t.text ∧
    d.sentiment = (analyze_sentiment score d.text).1 ∧
    d.polarity_score = round3 ((analyze_sentiment score d.text).2) ∧
    '\n' ∉ d.text ∧ '\r' ∉ d.text ∧
    '\n' ∉ d.sentiment.toList ∧ '\r' ∉ d.sentiment.toList := by
  obtain ⟨ht, hs, hp⟩ := processTweet_some_fields score t d h
  refine ⟨ht, by rw [ht]; exact hs, by rw [ht]; exact hp, ?_, ?_, ?_, ?_⟩
  · rw [ht]; exact nl_not_mem_cleanText t.text
  · rw [ht]; exact cr_not_mem_cleanText t.text
  · rcases sentiment_cases score (cleanText t.text) with hc | hc | hc <;>
      rw [hs, hc] <;> decide
  · rcases sentiment_cases score (cleanText t.text) with hc | hc | hc <;>
      rw [hs, hc] <;> decide

/-- Witness for C8 at the concrete tweet tW. -/
theorem C8_text_normalization_witness :
    dW.text = cleanText tW.text ∧
    dW.sentiment = (analyze_sentiment scoreW dW.text).1 ∧
    dW.polarity_score = round3 ((analyze_sentiment scoreW dW.text).2) ∧
    '\n' ∉ dW.text ∧ '\r' ∉ dW.text ∧
    '\n' ∉ dW.sentiment.toList ∧ '\r' ∉ dW.sentiment.toList :=
  C8_text_normalization scoreW tW dW processTweet_tW

/-- C7: generate_summary on the empty record list short-circuits to no
report, and a report is only ever produced for a non-empty record list,
whose length is then the positive divisor used for the percentages and
the mean. -/
theorem C7_empty_summary_short_circuit :
    generate_summary ([] : List TweetData) = .ok none ∧
    ∀ (results : List TweetData) (s : Summary),
      generate_summary results = .ok (some s) → 0 < results.length := by
  constructor
  · simp [generate_summary]
  · intro results s h
    by_cases he : results.isEmpty
    · rw [generate_summary, if_pos he] at h
      exact absurd h (by simp)
    · have hne : results ≠ [] := by simpa [List.isEmpty_iff] using he
      exact List.length_pos.mpr hne

/-- The summary computed for the one-record list [dW]. -/
def sW : Summary :=
  ⟨1, [("positive", 0), ("negative", 0), ("neutral", 1)],
   [("positive", 0), ("negative", 0), ("neutral", 100)], 0, "NEUTRAL"⟩

lemma tally_dW :
    tally [dW] initCounts 0 =
      some ([("positive", 0), ("negative", 0), ("neutral", 1)], 0) := by
  simp [tally, bump, initCounts, dW]

lemma generate_summary_dW : generate_summary [dW] = .ok (some sW) := by
  rw [generate_summary, if_neg (by simp), tally_dW]
  norm_num [sW]

/-- Witness for C7: a report is produced for the non-empty list [dW]. -/
theorem C7_empty_summary_short_circuit_witness :
    0 < ([dW] : List TweetData).length :=
  C7_empty_summary_short_circuit.2 [dW] sW generate_summary_dW

/-- C10: the 0 default for the engagement counters is used exactly when
the public_metrics dict is falsy (absent or empty); a truthy dict lacking
one of the two keys makes the assembly raise (return none) instead of
defaulting. -/
theorem C10_metrics_not_total (score : List Char → ℚ) (t : Tweet) :
    (t.public_metrics = none ∨ t.public_metrics = some [] →
      processTweet score t =
        some ⟨t.id, cleanText t.text, t.created_at,
          (analyze_sentiment score (cleanText t.text)).1,
          round3 ((analyze_sentiment score (cleanText t.text)).2), 0, 0⟩) ∧
    (∀ m, t.public_metrics = some m → m ≠ [] →
      dictGet m "retweet_count" = none ∨ dictGet m "like_count" = none →
      processTweet score t = none) := by
  constructor
  · rintro (hpm | hpm) <;> simp [processTweet, hpm]
  · intro m hpm hne hmiss
    cases m with
    | nil => exact absurd rfl hne
    | cons p rest =>
      rcases hmiss with hk | hk
      · simp [processTweet, hpm, hk]
      · simp [processTweet, hpm, hk]

/-- A tweet whose metrics dict is present but lacks the like_count key. -/
def tBad : Tweet := ⟨2, ['y', 'o'], 0, some [("retweet_count", 5)]⟩

/-- Witness for C10: assembly raises on tBad and defaults on tW. -/
theorem C10_metrics_not_total_witness :
    processTweet scoreW tBad = none ∧ processTweet scoreW tW = some dW := by
  constructor
  · exact (C10_metrics_not_total scoreW tBad).2 [("retweet_count", 5)] rfl
      (by simp) (Or.inr (by simp [dictGet]))
  · have h := (C10_metrics_not_total scoreW tW).1 (Or.inl rfl)
    simpa [tW, dW, cleanText, replaceChar, analyze_sentiment_scoreW,
      round3_zero] using h

lemma process_tweets_length (score : List Char → ℚ) (tweets : List Tweet)
    (results : List TweetData) (h : process_tweets score tweets = some results) :
    results.length = tweets.length := by
  induction tweets generalizing results with
  | nil =>
    simp [process_tweets] at h
    subst h
    rfl
  | cons t ts ih =>
    rw [process_tweets] at h
    cases hpt : processTweet score t <;> rw [hpt] at h
    · simp at h
    · cases hrest : process_tweets score ts <;> rw [hrest] at h
      · simp at h
      · simp only [Option.some.injEq] at h
        subst h
        simp [ih _ hrest]

lemma process_tweets_ne_nil (score : List Char → ℚ) (tweets : List Tweet)
    (results : List TweetData) (h : process_tweets score tweets = some results)
    (hne : tweets ≠ []) : results ≠ [] := by
  intro h0
  subst h0
  have hl := process_tweets_length score tweets [] h
  cases tweets with
  | nil => exact hne rfl
  | cons a as => simp at hl

lemma generate_summary_ne_ok_none (results : List TweetData)
    (hne : results ≠ []) : generate_summary results ≠ .ok none := by
  rw [generate_summary, if_neg (by simp [hne])]
  cases tally results initCounts 0 with
  | none => simp
  | some p => simp

lemma main_success (env : Env) (r : RunResult)
    (hm : main env = some r) (ha : env.auth_ok = true)
    (hf : fetch_tweets env.fetch_resp ≠ []) (hs : env.save_ok = true) :
    ∃ results s,
      process_tweets env.score (fetch_tweets env.fetch_resp) = some results ∧
      generate_summary results = .ok (some s) ∧
      r.csv_file = some (headers, results.map rowOf) ∧
      r.summary = some s ∧ r.completed = true ∧
      (env.bucket ≠ "YOUR_BUCKET_NAME" →
        r.publish_attempted = true ∧ r.published = upload_to_s3 env.upload_ok) ∧
      (env.bucket = "YOUR_BUCKET_NAME" →
        r.publish_attempted = false ∧ r.published = false) := by
  have hfe : (fetch_tweets env.fetch_resp).isEmpty = false := by
    cases hq : fetch_tweets env.fetch_resp with
    | nil => exact absurd hq hf
    | cons a as => rfl
  rw [main, ha] at hm
  simp only [Bool.not_true, Bool.false_eq_true, if_false, hfe] at hm
  cases hp : process_tweets env.score (fetch_tweets env.fetch_resp) with
  | none => rw [hp] at hm; simp at hm
  | some results =>
    rw [hp, hs] at hm
    dsimp only at hm
    rw [show save_to_csv true results = (true, some (headers, results.map rowOf))
      from by simp [save_to_csv]] at hm
    dsimp only at hm
    cases hg : generate_summary results with
    | error e => rw [hg] at hm; simp at hm
    | ok s0 =>
      rw [hg] at hm
      dsimp only at hm
      cases s0 with
      | none =>
        exact absurd hg
          (generate_summary_ne_ok_none results
            (process_tweets_ne_nil env.score _ results hp hf))
      | some s =>
        refine ⟨results, s, rfl, hg, ?_⟩
        split at hm
        next hb =>
          obtain rfl : (⟨some (headers, results.map rowOf), some s, true,
              upload_to_s3 env.upload_ok, true⟩ : RunResult) = r :=
            Option.some.inj hm
          exact ⟨rfl, rfl, rfl, fun _ => ⟨rfl, rfl⟩, fun hb2 => absurd hb2 hb⟩
        next hb =>
          obtain rfl : (⟨some (headers, results.map rowOf), some s, false,
              false, true⟩ : RunResult) = r := Option.some.inj hm
          exact ⟨rfl, rfl, rfl, fun hb2 => absurd hb2 hb, fun _ => ⟨rfl, rfl⟩⟩

lemma main_save_fail (env : Env) (r : RunResult)
    (hm : main env = some r) (ha : env.auth_ok = true)
    (hf : fetch_tweets env.fetch_resp ≠ []) (hsf : env.save_ok = false) :
    r = halted := by
  have hfe : (fetch_tweets env.fetch_resp).isEmpty = false := by
    cases hq : fetch_tweets env.fetch_resp with
    | nil => exact absurd hq hf
    | cons a as => rfl
  rw [main, ha] at hm
  simp only [Bool.not_true, Bool.false_eq_true, if_false, hfe] at hm
  cases hp : process_tweets env.score (fetch_tweets env.fetch_resp) with
  | none => rw [hp] at hm; simp at hm
  | some results =>
    rw [hp, hsf] at hm
    dsimp only at hm
    rw [show save_to_csv false results = (false, none) from by simp [save_to_csv]] at hm
    exact (Option.some.inj hm).symm

/-! Concrete environments used by the run-level claims. -/

/-- A run whose CSV export fails (the filesystem write raises). -/
def envC3 : Env := ⟨true, .ok (some [tW]), scoreW, false, "YOUR_BUCKET_NAME", false⟩

/-- A fully successful run with the bucket left at its placeholder. -/
def envW3 : Env := ⟨true, .ok (some [tW]), scoreW, true, "YOUR_BUCKET_NAME", false⟩

/-- The outcome of envW3: export written, summary produced, publish skipped. -/
def rW3 : RunResult := ⟨some (headers, [rowOf dW]), some sW, false, false, true⟩

/-- A run with a configured bucket whose upload fails. -/
def envW6 : Env := ⟨true, .ok (some [tW]), scoreW, true, "mybucket", false⟩

/-- The outcome of envW6: publish attempted and failed, run completed. -/
def rW6 : RunResult := ⟨some (headers, [rowOf dW]), some sW, true, false, true⟩

/-- A run in which the provider reports zero matching posts. -/
def envW4 : Env := ⟨true, .ok none, scoreW, true, "mybucket", true⟩

lemma fetch_envW3 : fetch_tweets envW3.fetch_resp = [tW] := by
  simp [envW3, fetch_tweets]

lemma main_envC3 : main envC3 = some halted := by
  rw [main]
  simp only [envC3, Bool.not_true, Bool.false_eq_true, if_false]
  rw [show fetch_tweets (.ok (some [tW])) = [tW] from by simp [fetch_tweets]]
  simp only [List.isEmpty_cons, Bool.false_eq_true, if_false]
  rw [process_tweets_tW]
  dsimp only
  rw [show save_to_csv false [dW] = (false, none) from by simp [save_to_csv]]

lemma main_envW3 : main envW3 = some rW3 := by
  rw [main]
  simp only [envW3, Bool.not_true, Bool.false_eq_true, if_false]
  rw [show fetch_tweets (.ok (some [tW])) = [tW] from by simp [fetch_tweets]]
  simp only [List.isEmpty_cons, Bool.false_eq_true, if_false]
  rw [process_tweets_tW]
  dsimp only
  rw [show save_to_csv true [dW] = (true, some (headers, [rowOf dW]))
    from by simp [save_to_csv]]
  dsimp only
  rw [generate_summary_dW]
  dsimp only
  simp [rW3]

lemma main_envW6 : main envW6 = some rW6 := by
  rw [main]
  simp only [envW6, Bool.not_true, Bool.false_eq_true, if_false]
  rw [show fetch_tweets (.ok (some [tW])) = [tW] from by simp [fetch_tweets]]
  simp only [List.isEmpty_cons, Bool.false_eq_true, if_false]
  rw [process_tweets_tW]
  dsimp only
  rw [show save_to_csv true [dW] = (true, some (headers, [rowOf dW]))
    from by simp [save_to_csv]]
  dsimp only
  rw [generate_summary_dW]
  dsimp only
  simp [rW6, upload_to_s3]

/-- C3 counterexample: a run that reaches assembly (a record is built)
but whose export fails produces no summary at all, against the claim
that the summary is independent of export success. -/
theorem C3_counterexample :
    fetch_tweets envC3.fetch_resp ≠ [] ∧
    process_tweets envC3.score (fetch_tweets envC3.fetch_resp) = some [dW] ∧
    envC3.save_ok = false ∧
    main envC3 = some halted ∧
    halted.summary = none := by
  refine ⟨?_, ?_, rfl, main_envC3, rfl⟩
  · rw [show fetch_tweets envC3.fetch_resp = [tW] from by simp [envC3, fetch_tweets]]
    simp
  · rw [show fetch_tweets envC3.fetch_resp = [tW] from by simp [envC3, fetch_tweets]]
    exact process_tweets_tW

/-- C3 (amended): in a run that reaches the assembly stage, a summary is
produced exactly when the export succeeds; an export failure halts the
pipeline before the summary, while the publish outcome has no influence
on the summary. -/
theorem C3_summary_iff_export (env : Env) (r : RunResult)
    (hm : main env = some r) (ha : env.auth_ok = true)
    (hf : fetch_tweets env.fetch_resp ≠ []) :
    (r.summary.isSome ↔ env.save_ok = true) ∧
    (∀ b r2, main {env with upload_ok := b} = some r2 →
      r2.summary = r.summary) := by
  by_cases hs : env.save_ok = true
  · obtain ⟨results, s, hp, hg, _, hsum, _, _, _⟩ :=
      main_success env r hm ha hf hs
    refine ⟨by simp [hsum, hs], ?_⟩
    intro b r2 hm2
    obtain ⟨results2, s2, hp2, hg2, _, hsum2, _, _, _⟩ :=
      main_success {env with upload_ok := b} r2 hm2 ha hf hs
    dsimp only at hp2
    rw [hsum2, hsum]
    rw [hp] at hp2
    obtain rfl := Option.some.inj hp2
    rw [hg] at hg2
    have hss : some s = some s2 := Except.ok.inj hg2
    rw [Option.some.inj hss]
  · have hsf : env.save_ok = false := by
      cases h2 : env.save_ok
      · rfl
      · exact absurd h2 hs
    have hr := main_save_fail env r hm ha hf hsf
    subst hr
    refine ⟨by simp [halted, hsf], ?_⟩
    intro b r2 hm2
    rw [main_save_fail {env with upload_ok := b} r2 hm2 ha hf hsf]

/-- Witness for the amended C3 at a successful concrete run. -/
theorem C3_summary_iff_export_witness :
    rW3.summary.isSome ↔ envW3.save_ok = true :=
  (C3_summary_iff_export envW3 rW3 main_envW3 rfl
    (by rw [fetch_envW3]; simp)).1

/-- C4: a zero-post provider response makes fetch_tweets return the
empty list (no error), and main then returns normally before the export
stage: no CSV file, no summary, no completion message, no exception. -/
theorem C4_empty_fetch_halts (env : Env)
    (h : env.fetch_resp = .ok none ∨ env.fetch_resp = .ok (some [])) :
    fetch_tweets env.fetch_resp = [] ∧ main env = some halted ∧
    halted.csv_file = none ∧ halted.summary = none ∧
    halted.completed = false := by
  have hft : fetch_tweets env.fetch_resp = [] := by
    rcases h with h | h <;> simp [fetch_tweets, h]
  refine ⟨hft, ?_, rfl, rfl, rfl⟩
  cases ha : env.auth_ok
  · simp [main, ha]
  · simp [main, ha, hft]

/-- Witness for C4 at a concrete empty provider response. -/
theorem C4_empty_fetch_halts_witness :
    fetch_tweets envW4.fetch_resp = [] ∧ main envW4 = some halted ∧
    halted.csv_file = none ∧ halted.summary = none ∧
    halted.completed = false :=
  C4_empty_fetch_halts envW4 (Or.inl rfl)

/-- C5: in a run that reaches the publish decision, the publish stage is
attempted exactly when the bucket differs from its placeholder; with the
placeholder bucket the stage is skipped while the run still completes
with the CSV file on disk and a summary produced. -/
theorem C5_publish_gating (env : Env) (r : RunResult)
    (hm : main env = some r) (ha : env.auth_ok = true)
    (hf : fetch_tweets env.fetch_resp ≠ []) (hs : env.save_ok = true) :
    (r.publish_attempted = true ↔ env.bucket ≠ "YOUR_BUCKET_NAME") ∧
    (env.bucket = "YOUR_BUCKET_NAME" →
      r.publish_attempted = false ∧ r.completed = true ∧
      r.csv_file.isSome ∧ r.summary.isSome) := by
  obtain ⟨results, s, hp, hg, hcsv, hsum, hcomp, hbne, hbeq⟩ :=
    main_success env r hm ha hf hs
  constructor
  · constructor
    · intro hpa heq
      have hfalse := (hbeq heq).1
      rw [hfalse] at hpa
      exact Bool.false_ne_true hpa
    · intro hb
      exact (hbne hb).1
  · intro hb
    exact ⟨(hbeq hb).1, hcomp, by simp [hcsv], by simp [hsum]⟩

/-- Witness for C5 at a concrete run with the placeholder bucket. -/
theorem C5_publish_gating_witness :
    (rW3.publish_attempted = true ↔ envW3.bucket ≠ "YOUR_BUCKET_NAME") ∧
    (envW3.bucket = "YOUR_BUCKET_NAME" →
      rW3.publish_attempted = false ∧ rW3.completed = true ∧
      rW3.csv_file.isSome ∧ rW3.summary.isSome) :=
  C5_publish_gating envW3 rW3 main_envW3 rfl
    (by rw [fetch_envW3]; simp) rfl

/-- C6: when the publish stage is attempted and the upload fails, the
failure is caught (upload_to_s3 returns false rather than raising), the
run still completes, and both the CSV file and the summary survive. -/
theorem C6_publish_failure_nonfatal (env : Env) (r : RunResult)
    (hm : main env = some r) (ha : env.auth_ok = true)
    (hf : fetch_tweets env.fetch_resp ≠ []) (hs : env.save_ok = true)
    (hb : env.bucket ≠ "YOUR_BUCKET_NAME") (hu : env.upload_ok = false) :
    upload_to_s3 env.upload_ok = false ∧ r.publish_attempted = true ∧
    r.published = false ∧ r.completed = true ∧
    r.csv_file.isSome ∧ r.summary.isSome := by
  obtain ⟨results, s, hp, hg, hcsv, hsum, hcomp, hbne, hbeq⟩ :=
    main_success env r hm ha hf hs
  obtain ⟨hpa, hpub⟩ := hbne hb
  refine ⟨by simp [upload_to_s3, hu], hpa, ?_, hcomp,
    by simp [hcsv], by simp [hsum]⟩
  rw [hpub]
  simp [upload_to_s3, hu]

/-- Witness for C6 at a concrete run with a configured bucket and a
failing upload. -/
theorem C6_publish_failure_nonfatal_witness :
    upload_to_s3 envW6.upload_ok = false ∧ rW6.publish_attempted = true ∧
    rW6.published = false ∧ rW6.completed = true ∧
    rW6.csv_file.isSome ∧ rW6.summary.isSome :=
  C6_publish_failure_nonfatal envW6 rW6 main_envW6 rfl
    (by simp [envW6, fetch_tweets]) rfl (by simp [envW6]) rfl

/-- C9: the exported file starts with exactly the seven column names in
order, holds one row per assembled record in input order, each row lists
the record fields in header order, and the stored polarity is the
3-decimal rounding of the scored polarity. -/
theorem C9_export_schema (score : List Char → ℚ) (tweets : List Tweet)
    (results : List TweetData) (h : process_tweets score tweets = some results) :
    save_to_csv true results =
      (true, some (["tweet_id", "text", "created_at", "sentiment",
        "polarity_score", "retweet_count", "like_count"], results.map rowOf)) ∧
    (∀ d ∈ results, rowOf d =
      [some (.nat d.tweet_id), some (.chars d.text), some (.nat d.created_at),
       some (.str d.sentiment), some (.rat d.polarity_score),
       some (.nat d.retweet_count), some (.nat d.like_count)]) ∧
    List.Forall₂ (fun t d => d.polarity_score =
      round3 ((analyze_sentiment score (cleanText t.text)).2)) tweets results := by
  refine ⟨by simp [save_to_csv, headers], ?_, ?_⟩
  · intro d _
    simp [rowOf, headers, fieldOf]
  · induction tweets generalizing results with
    | nil =>
      simp [process_tweets] at h
      subst h
      exact List.Forall₂.nil
    | cons t ts ih =>
      rw [process_tweets] at h
      cases hpt : processTweet score t <;> rw [hpt] at h
      · simp at h
      · cases hrest : process_tweets score ts <;> rw [hrest] at h
        · simp at h
        · simp only [Option.some.injEq] at h
          subst h
          exact List.Forall₂.cons
            (processTweet_some_fields score t _ hpt).2.2 (ih _ hrest)

/-- Witness for C9 at a concrete one-tweet run. -/
theorem C9_export_schema_witness :
    List.Forall₂ (fun t d => d.polarity_score =
      round3 ((analyze_sentiment scoreW (cleanText t.text)).2)) [tW] [dW] :=
  (C9_export_schema scoreW [tW] [dW] process_tweets_tW).2.2

end XSentiment
